import Mathlib

/-!
Verification of the Google Sheets adapter in `src/main.py`.

The adapter is embedded shallowly:

* Python exceptions become an explicit `PyError` value (a kind such as
  `"Exception"` or `"IndexError"`, plus a message); fallible code returns
  `Except PyError _`.
* Python `list` indexing (`row[i]`) becomes `pyIndex`, which returns an
  `IndexError` out of bounds.
* Python `dict` (string keys, insertion ordered, last write wins) becomes
  an association list `PyDict` with `dictInsert` / `dictGet`.
* The external collaborators (the `googleapiclient` service and the two
  `Credentials.from_service_account_*` loaders) are abstracted as
  environment records; connection creation is modelled as a counter on a
  `ServiceState`, so each `build` call mints a fresh handle (its index).
* The pandas `DataFrame` built from a dict of equal-length columns is
  modelled row-major: a list of column labels plus a list of rows.
-/

set_option autoImplicit false

namespace SheetsAdapter

/-- A Python exception: its class name and its message (`str(e)`). -/
structure PyError where
  kind : String
  msg : String
  deriving DecidableEq, Repr

/-- The `IndexError` raised by out-of-bounds list indexing in Python. -/
def indexErr : PyError := ⟨"IndexError", "list index out of range"⟩

/-- Python list indexing `l[i]` for a nonnegative index. -/
def pyIndex (l : List String) (i : Nat) : Except PyError String :=
  match l.get? i with
  | some v => .ok v
  | none => .error indexErr

/-- A Python `dict` from header labels to column values, insertion ordered. -/
abbrev PyDict := List (String × List String)

/-- Python `d[k] = v`: update the existing entry in place, else append. -/
def dictInsert : PyDict → String → List String → PyDict
  | [], k, v => [(k, v)]
  | p :: d, k, v => if p.1 = k then (k, v) :: d else p :: dictInsert d k v

/-- Python `d[k]` lookup (as an `Option`). -/
def dictGet : PyDict → String → Option (List String)
  | [], _ => none
  | p :: d, k => if p.1 = k then some p.2 else dictGet d k

/-- The list comprehension `[row[i] for row in rows]` from line 80 of
`src/main.py`: raises `IndexError` if some row is shorter than `i+1`. -/
def buildColumn (rows : List (List String)) (i : Nat) :
    Except PyError (List String) :=
  match rows with
  | [] => .ok []
  | row :: rest => do
    let v ← pyIndex row i
    let vs ← buildColumn rest i
    pure (v :: vs)

/-- The dict comprehension of lines 79-82 of `src/main.py`, unrolled over a
list of column indices: for each `i`, evaluate `column_names[i]` and
`[row[i] for row in rows]` and insert the pair into the dict. -/
def buildMapping (header : List String) (rows : List (List String)) :
    List Nat → PyDict → Except PyError PyDict
  | [], d => .ok d
  | i :: is, d => do
    let key ← pyIndex header i
    let col ← buildColumn rows i
    buildMapping header rows is (dictInsert d key col)

/-- Lines 78-82 of `src/main.py`: `column_names = results[0]` and the dict
comprehension over `range(len(column_names))` applied to `results[1:]`. -/
def reshape (header : List String) (rows : List (List String)) :
    Except PyError PyDict :=
  buildMapping header rows (List.range header.length) []

/-- The body of the `try` block of `get_sheet_data` applied to the decoded
grid (lines 74-83 of `src/main.py`): raise the empty-range `Exception` if
the grid has no rows at all, else reshape it. -/
def get_sheet_data_inner : List (List String) → Except PyError PyDict
  | [] => .error ⟨"Exception", "The spreadsheet/sheet range is empty."⟩
  | header :: rows => reshape header rows

/-- The `except Exception as e: raise Exception(f"An error has occured: {e}")`
re-wrapping from lines 41-42 and 85-86 of `src/main.py`.  Note the source
spells the message `occured`. -/
def wrapError (e : PyError) : PyError :=
  ⟨"Exception", "An error has occured: " ++ e.msg⟩

/-- State of the external spreadsheet service: how many connection handles
have been created so far.  A handle is identified by its creation index. -/
structure ServiceState where
  opened : Nat
  deriving DecidableEq, Repr

/-- Behaviour of the external collaborators used by the Sheet Client:
whether the `build("sheets", "v4", ...)` handshake succeeds, and what
`connection.spreadsheets().values().get(...).execute()["values"]` yields
for a given connection handle, spreadsheet id and range. -/
structure ServiceEnv where
  buildResult : Except PyError Unit
  sheetValues : Nat → String → String → Except PyError (List (List String))

/-- The external `build("sheets", "v4", credentials=...)` call: on success
it mints a brand-new connection handle (the next index). -/
def build (env : ServiceEnv) (s : ServiceState) :
    Except PyError Nat × ServiceState :=
  match env.buildResult with
  | .error e => (.error e, s)
  | .ok _ => (.ok s.opened, ⟨s.opened + 1⟩)

/-- `GoogleSheetConnectorClass.build_connection` (lines 35-42 of
`src/main.py`): call `build` and re-wrap any error generically. -/
def build_connection (env : ServiceEnv) (s : ServiceState) :
    Except PyError Nat × ServiceState :=
  match build env s with
  | (.ok c, t) => (.ok c, t)
  | (.error e, t) => (.error (wrapError e), t)

/-- The `try`/`except` of `get_sheet_data` (lines 71-86 of `src/main.py`)
for a given connection handle: execute the request, run the empty-range
check and the reshape, and re-wrap any error generically. -/
def fetchBody (env : ServiceEnv) (conn : Nat)
    (spreadsheet_id sheet_range : String) : Except PyError PyDict :=
  match (env.sheetValues conn spreadsheet_id sheet_range).bind
      get_sheet_data_inner with
  | .ok d => .ok d
  | .error e => .error (wrapError e)

/-- `GoogleSheetConnectorClass.get_sheet_data` (lines 44-86 of
`src/main.py`): open a fresh connection via `build_connection`, then run
the request/reshape pipeline on that handle.  Errors raised by
`build_connection` are already wrapped and propagate as-is (line 60 is
outside the `try` block). -/
def get_sheet_data (env : ServiceEnv) (spreadsheet_id sheet_range : String)
    (s : ServiceState) : Except PyError PyDict × ServiceState :=
  match build_connection env s with
  | (.error e, t) => (.error e, t)
  | (.ok conn, t) => (fetchBody env conn spreadsheet_id sheet_range, t)

/-- An authenticated identity returned by the credential loaders (opaque to
the adapter; modelled as a token). -/
structure Creds where
  token : String
  deriving DecidableEq, Repr

/-- An in-memory service-account mapping. -/
abbrev CredDict := List (String × String)

/-- The credentials argument of `GoogleSheetConnectorClass.__init__`, a
Python `Union[str, dict]`. -/
inductive Descriptor where
  | str (path : String)
  | dict (info : CredDict)

/-- Behaviour of the external `google.oauth2.service_account.Credentials`
loaders (they may raise, e.g. on a missing file or missing fields). -/
structure CredEnv where
  from_service_account_file : String → Except PyError Creds
  from_service_account_info : CredDict → Except PyError Creds

/-- The instantiated `GoogleSheetConnectorClass`: its only attribute is
`self.creds`. -/
structure GoogleSheetConnectorClass where
  creds : Creds
  deriving DecidableEq, Repr

/-- `GoogleSheetConnectorClass.__init__` (lines 18-33 of `src/main.py`):
dispatch on `isinstance(credentials, str)`; load from file for a string,
from the in-memory mapping otherwise.  No `try` surrounds the loaders. -/
def init (cenv : CredEnv) (credentials : Descriptor) :
    Except PyError GoogleSheetConnectorClass :=
  match credentials with
  | .str path => (cenv.from_service_account_file path).map
      (fun c => ⟨c⟩)
  | .dict info => (cenv.from_service_account_info info).map
      (fun c => ⟨c⟩)

/-- The pandas `DataFrame` produced from a dict of columns, modelled
row-major: the column labels in order, and the list of rows. -/
structure DataFrame where
  columns : List String
  rows : List (List String)
  deriving DecidableEq, Repr

/-- Number of rows `pd.DataFrame` would give a dict: the length of its
first column. -/
def colLen (d : PyDict) : Nat :=
  match d with
  | [] => 0
  | p :: _ => p.2.length

/-- `pd.DataFrame(data=raw)` for a dict of columns: requires all columns to
have equal length (else pandas raises `ValueError`); columns appear in dict
insertion order and row `i` holds entry `i` of every column. -/
def pdDataFrame (d : PyDict) : Except PyError DataFrame :=
  if d.all (fun p => p.2.length = colLen d) then
    .ok ⟨d.map Prod.fst,
      (List.range (colLen d)).map (fun i => d.map (fun p => p.2.getD i ""))⟩
  else
    .error ⟨"ValueError", "All arrays must be of the same length"⟩

/-- Index of a column label in a `DataFrame`, first match (pandas column
lookup). -/
def colIndex : List String → String → Option Nat
  | [], _ => none
  | c :: cs, k => if c = k then some 0 else (colIndex cs k).map (· + 1)

/-- `df[k]`: the values of column `k`, read row by row. -/
def dfGetCol (df : DataFrame) (k : String) : Option (List String) :=
  match colIndex df.columns k with
  | none => none
  | some j => some (df.rows.map (fun r => r.getD j ""))

/-- `sheet_data_to_df` (lines 89-111 of `src/main.py`): instantiate the
class (loader errors propagate unmodified), call `build_connection` once
and discard the handle, fetch the data (which builds another connection),
and convert to a `DataFrame` (a pandas error here is not wrapped). -/
def sheet_data_to_df (cenv : CredEnv) (env : ServiceEnv)
    (credentials : Descriptor) (spreadsheet_id sheet_range : String)
    (s : ServiceState) : Except PyError DataFrame × ServiceState :=
  match init cenv credentials with
  | .error e => (.error e, s)
  | .ok _gs =>
    match build_connection env s with
    | (.error e, t) => (.error e, t)
    | (.ok _conn, t) =>
      match get_sheet_data env spreadsheet_id sheet_range t with
      | (.error e, u) => (.error e, u)
      | (.ok raw, u) => (pdDataFrame raw, u)

end SheetsAdapter

namespace SheetsAdapter

/-! ### Basic facts about the Python-style primitives -/

theorem pyIndex_ok (l : List String) (i : Nat) (h : i < l.length) :
    pyIndex l i = .ok (l.getD i "") := by
  unfold pyIndex
  rw [List.get?_eq_getElem?, List.getElem?_eq_getElem h,
    List.getD_eq_getElem?_getD, List.getElem?_eq_getElem h]
  rfl

theorem pyIndex_err (l : List String) (i : Nat) (h : l.length ≤ i) :
    pyIndex l i = .error indexErr := by
  unfold pyIndex
  rw [List.get?_eq_getElem?, List.getElem?_eq_none h]

theorem pyIndex_ok_iff_lt (l : List String) (i : Nat) (v : String)
    (h : pyIndex l i = .ok v) : i < l.length := by
  by_contra hge
  rw [pyIndex_err l i (Nat.le_of_not_lt hge)] at h
  exact Except.noConfusion h

theorem pyIndex_error_eq (l : List String) (i : Nat) (e : PyError)
    (h : pyIndex l i = .error e) : e = indexErr := by
  unfold pyIndex at h
  cases hg : l.get? i with
  | none => rw [hg] at h; exact (Except.error.inj h).symm
  | some v => rw [hg] at h; exact Except.noConfusion h

theorem getD_of_get? {α : Type} (l : List α) (j : Nat) (p dflt : α)
    (h : l.get? j = some p) : l.getD j dflt = p := by
  rw [List.getD_eq_getElem?_getD, ← List.get?_eq_getElem?, h]
  rfl

theorem getD_map_of_lt {α β : Type} (f : α → β) (l : List α) (i : Nat)
    (h : i < l.length) (da : α) (db : β) :
    (l.map f).getD i db = f (l.getD i da) := by
  induction l generalizing i with
  | nil => exact absurd h (Nat.not_lt_zero i)
  | cons a l ih =>
    cases i with
    | zero => simp
    | succ i =>
      simp only [List.map_cons, List.getD_cons_succ]
      exact ih i (Nat.lt_of_succ_lt_succ h)

theorem getD_take_of_lt {α : Type} (l : List α) (n i : Nat) (h : i < n)
    (dflt : α) : (l.take n).getD i dflt = l.getD i dflt := by
  rw [List.getD_eq_getElem?_getD, List.getD_eq_getElem?_getD,
    List.getElem?_take, if_pos h]

theorem rangeMapGetD {α : Type} (l : List α) (dflt : α) :
    (List.range l.length).map (fun i => l.getD i dflt) = l := by
  induction l with
  | nil => rfl
  | cons a l ih =>
    rw [List.length_cons, List.range_succ_eq_map, List.map_cons,
      List.map_map]
    have h2 : ((fun i => (a :: l).getD i dflt) ∘ Nat.succ)
        = fun i => l.getD i dflt := by
      funext i; exact List.getD_cons_succ
    rw [h2, ih]
    simp

/-! ### Facts about the Python dict model -/

theorem dictGet_insert_self (d : PyDict) (k : String) (v : List String) :
    dictGet (dictInsert d k v) k = some v := by
  induction d with
  | nil => simp [dictInsert, dictGet]
  | cons p d ih =>
    by_cases hp : p.1 = k
    · simp [dictInsert, dictGet, hp]
    · simp [dictInsert, dictGet, hp, ih]

theorem dictGet_insert_ne (d : PyDict) (k k' : String) (v : List String)
    (hne : k' ≠ k) : dictGet (dictInsert d k v) k' = dictGet d k' := by
  induction d with
  | nil => simp [dictInsert, dictGet, Ne.symm hne]
  | cons p d ih =>
    by_cases hp : p.1 = k
    · have hk : ¬ k = k' := fun h => hne h.symm
      have hp' : ¬ p.1 = k' := fun h => hk (hp.symm.trans h)
      simp only [dictInsert, if_pos hp, dictGet, if_neg hk, if_neg hp']
    · by_cases hq : p.1 = k'
      · simp only [dictInsert, if_neg hp, dictGet, if_pos hq]
      · simp only [dictInsert, if_neg hp, dictGet, if_neg hq, ih]

theorem dictInsert_fresh (d : PyDict) (k : String) (v : List String)
    (hfresh : ∀ p ∈ d, p.1 ≠ k) : dictInsert d k v = d ++ [(k, v)] := by
  induction d with
  | nil => rfl
  | cons p d ih =>
    have hp : p.1 ≠ k := hfresh p (List.mem_cons_self p d)
    simp only [dictInsert, if_neg hp, List.cons_append, List.cons.injEq,
      true_and]
    exact ih (fun q hq => hfresh q (List.mem_cons_of_mem p hq))

end SheetsAdapter

namespace SheetsAdapter

/-! ### The reshape fold and its pure counterpart -/

theorem buildColumn_ok (rows : List (List String)) (i : Nat)
    (h : ∀ r ∈ rows, i < r.length) :
    buildColumn rows i = .ok (rows.map (fun r => r.getD i "")) := by
  induction rows with
  | nil => rfl
  | cons row rest ih =>
    have hrow := h row (List.mem_cons_self row rest)
    have hrest := ih (fun r hr => h r (List.mem_cons_of_mem row hr))
    simp only [buildColumn, pyIndex_ok row i hrow, hrest, List.map_cons]
    rfl

theorem buildColumn_ok_imp (rows : List (List String)) (i : Nat)
    (c : List String) (h : buildColumn rows i = .ok c) :
    ∀ r ∈ rows, i < r.length := by
  induction rows generalizing c with
  | nil => intro r hr; exact absurd hr (List.not_mem_nil r)
  | cons row rest ih =>
    intro r hr
    simp only [buildColumn] at h
    cases hpi : pyIndex row i with
    | error e => rw [hpi] at h; exact Except.noConfusion h
    | ok v =>
      rw [hpi] at h
      cases hbc : buildColumn rest i with
      | error e =>
        rw [hbc] at h
        exact Except.noConfusion h
      | ok vs =>
        rw [hbc] at h
        rcases List.mem_cons.mp hr with h1 | h2
        · exact h1 ▸ pyIndex_ok_iff_lt row i v hpi
        · exact ih vs hbc r h2

theorem buildColumn_error_eq (rows : List (List String)) (i : Nat)
    (e : PyError) (h : buildColumn rows i = .error e) : e = indexErr := by
  induction rows generalizing e with
  | nil => exact Except.noConfusion h
  | cons row rest ih =>
    simp only [buildColumn] at h
    cases hpi : pyIndex row i with
    | error e' =>
      rw [hpi] at h
      have : e' = e := Except.error.inj h
      exact this ▸ pyIndex_error_eq row i e' hpi
    | ok v =>
      rw [hpi] at h
      cases hbc : buildColumn rest i with
      | error e' =>
        rw [hbc] at h
        exact (Except.error.inj h) ▸ ih e' hbc
      | ok vs => rw [hbc] at h; exact Except.noConfusion h

/-- Pure counterpart of `buildMapping`, for a generic per-index key and
column: the successful fold is just a sequence of dict inserts. -/
def buildMappingPure (key : Nat → String) (col : Nat → List String) :
    List Nat → PyDict → PyDict
  | [], d => d
  | i :: is, d => buildMappingPure key col is (dictInsert d (key i) (col i))

theorem buildMappingPure_append (key : Nat → String)
    (col : Nat → List String) (is js : List Nat) (d : PyDict) :
    buildMappingPure key col (is ++ js) d
      = buildMappingPure key col js (buildMappingPure key col is d) := by
  induction is generalizing d with
  | nil => rfl
  | cons i is ih =>
    simp only [List.cons_append, buildMappingPure]
    exact ih (dictInsert d (key i) (col i))

theorem buildMappingPure_congr (key₁ key₂ : Nat → String)
    (col₁ col₂ : Nat → List String) (is : List Nat) (d : PyDict)
    (h : ∀ i ∈ is, key₁ i = key₂ i ∧ col₁ i = col₂ i) :
    buildMappingPure key₁ col₁ is d = buildMappingPure key₂ col₂ is d := by
  induction is generalizing d with
  | nil => rfl
  | cons i is ih =>
    obtain ⟨hk, hc⟩ := h i (List.mem_cons_self i is)
    simp only [buildMappingPure, hk, hc]
    exact ih _ (fun j hj => h j (List.mem_cons_of_mem i hj))

theorem buildMapping_ok (header : List String) (rows : List (List String))
    (is : List Nat) (d : PyDict)
    (hhdr : ∀ i ∈ is, i < header.length)
    (hrows : ∀ r ∈ rows, ∀ i ∈ is, i < r.length) :
    buildMapping header rows is d
      = .ok (buildMappingPure (fun i => header.getD i "")
          (fun i => rows.map (fun r => r.getD i "")) is d) := by
  induction is generalizing d with
  | nil => rfl
  | cons i is ih =>
    have hi := hhdr i (List.mem_cons_self i is)
    have hci : ∀ r ∈ rows, i < r.length :=
      fun r hr => hrows r hr i (List.mem_cons_self i is)
    simp only [buildMapping, pyIndex_ok header i hi, buildColumn_ok rows i hci,
      buildMappingPure]
    exact ih _ (fun j hj => hhdr j (List.mem_cons_of_mem i hj))
      (fun r hr j hj => hrows r hr j (List.mem_cons_of_mem i hj))

theorem buildMapping_ok_imp (header : List String)
    (rows : List (List String)) (is : List Nat) (d d' : PyDict)
    (h : buildMapping header rows is d = .ok d') :
    ∀ i ∈ is, ∀ r ∈ rows, i < r.length := by
  induction is generalizing d d' with
  | nil => intro i hi; exact absurd hi (List.not_mem_nil i)
  | cons i is ih =>
    intro j hj r hr
    simp only [buildMapping] at h
    cases hpi : pyIndex header i with
    | error e => rw [hpi] at h; exact Except.noConfusion h
    | ok key =>
      rw [hpi] at h
      cases hbc : buildColumn rows i with
      | error e => rw [hbc] at h; exact Except.noConfusion h
      | ok c =>
        rw [hbc] at h
        rcases List.mem_cons.mp hj with h1 | h2
        · exact h1 ▸ buildColumn_ok_imp rows i c hbc r hr
        · exact ih _ d' h j h2 r hr

theorem buildMapping_error_eq (header : List String)
    (rows : List (List String)) (is : List Nat) (d : PyDict) (e : PyError)
    (h : buildMapping header rows is d = .error e) : e = indexErr := by
  induction is generalizing d with
  | nil => exact Except.noConfusion h
  | cons i is ih =>
    simp only [buildMapping] at h
    cases hpi : pyIndex header i with
    | error e' =>
      rw [hpi] at h
      exact (Except.error.inj h) ▸ pyIndex_error_eq header i e' hpi
    | ok key =>
      rw [hpi] at h
      cases hbc : buildColumn rows i with
      | error e' =>
        rw [hbc] at h
        exact (Except.error.inj h) ▸ buildColumn_error_eq rows i e' hbc
      | ok c =>
        rw [hbc] at h
        exact ih _ h

end SheetsAdapter

namespace SheetsAdapter

section MappingStructure

variable (key : Nat → String) (col : Nat → List String)

theorem buildMappingPure_fresh (is : List Nat) (d : PyDict)
    (hnodup : (is.map key).Nodup)
    (hfresh : ∀ i ∈ is, ∀ p ∈ d, p.1 ≠ key i) :
    buildMappingPure key col is d
      = d ++ is.map (fun i => (key i, col i)) := by
  induction is generalizing d with
  | nil => simp [buildMappingPure]
  | cons i is ih =>
    have hfi : ∀ p ∈ d, p.1 ≠ key i :=
      fun p hp => hfresh i (List.mem_cons_self i is) p hp
    have hni : key i ∉ is.map key := by
      rw [List.map_cons, List.nodup_cons] at hnodup
      exact hnodup.1
    simp only [buildMappingPure, dictInsert_fresh d (key i) (col i) hfi]
    rw [ih (d ++ [(key i, col i)])]
    · simp
    · rw [List.map_cons, List.nodup_cons] at hnodup
      exact hnodup.2
    · intro j hj p hp
      rcases List.mem_append.mp hp with h1 | h2
      · exact hfresh j (List.mem_cons_of_mem i hj) p h1
      · rcases List.mem_singleton.mp h2 with rfl
        intro hcontra
        have heq : key i = key j := hcontra
        exact hni (by rw [heq]; exact List.mem_map_of_mem key hj)

theorem dictGet_map_keys (is : List Nat) (j : Nat) (hj : j ∈ is)
    (hnodup : (is.map key).Nodup) :
    dictGet (is.map (fun i => (key i, col i))) (key j) = some (col j) := by
  induction is with
  | nil => exact absurd hj (List.not_mem_nil j)
  | cons i is ih =>
    rw [List.map_cons, List.nodup_cons] at hnodup
    rcases List.mem_cons.mp hj with rfl | hmem
    · simp [dictGet]
    · have hne : ¬ key i = key j := by
        intro hcontra
        exact hnodup.1 (hcontra ▸ List.mem_map_of_mem key hmem)
      simp only [List.map_cons, dictGet, if_neg hne]
      exact ih hmem hnodup.2

theorem buildMappingPure_last_write (M : Nat) (d : PyDict) (j : Nat)
    (hj : j < M)
    (hlast : ∀ k, j < k → k < M → key k ≠ key j) :
    dictGet (buildMappingPure key col (List.range M) d) (key j)
      = some (col j) := by
  induction M generalizing d with
  | zero => exact absurd hj (Nat.not_lt_zero j)
  | succ M ih =>
    rw [List.range_succ, buildMappingPure_append]
    show dictGet (dictInsert (buildMappingPure key col (List.range M) d)
      (key M) (col M)) (key j) = some (col j)
    rcases Nat.lt_succ_iff_lt_or_eq.mp hj with hlt | rfl
    · have hne : key j ≠ key M :=
        fun h => hlast M hlt (Nat.lt_succ_self M) h.symm
      rw [dictGet_insert_ne _ _ _ _ hne]
      exact ih d hlt
        (fun k h1 h2 => hlast k h1 (Nat.lt_succ_of_lt h2))
    · exact dictGet_insert_self _ _ _

end MappingStructure

/-! ### Reshape-level corollaries -/

theorem reshape_ok (header : List String) (rows : List (List String))
    (hrect : ∀ r ∈ rows, header.length ≤ r.length) :
    reshape header rows
      = .ok (buildMappingPure (fun i => header.getD i "")
          (fun i => rows.map (fun r => r.getD i ""))
          (List.range header.length) []) := by
  unfold reshape
  exact buildMapping_ok header rows (List.range header.length) []
    (fun i hi => List.mem_range.mp hi)
    (fun r hr i hi =>
      Nat.lt_of_lt_of_le (List.mem_range.mp hi) (hrect r hr))

theorem reshape_struct (header : List String) (rows : List (List String))
    (hnodup : header.Nodup)
    (hrect : ∀ r ∈ rows, header.length ≤ r.length) :
    reshape header rows
      = .ok ((List.range header.length).map
          (fun i => (header.getD i "", rows.map (fun r => r.getD i "")))) := by
  rw [reshape_ok header rows hrect]
  rw [buildMappingPure_fresh _ _ _ []
    (by rw [rangeMapGetD header ""]; exact hnodup)
    (fun i _ p hp => absurd hp (List.not_mem_nil p))]
  rfl

theorem reshape_not_ok (header : List String) (rows : List (List String))
    (hragged : ∃ r ∈ rows, r.length < header.length) :
    reshape header rows = .error indexErr := by
  obtain ⟨r₀, hr₀, hlen⟩ := hragged
  cases hres : reshape header rows with
  | ok d =>
    have := buildMapping_ok_imp header rows (List.range header.length) [] d
      hres r₀.length (List.mem_range.mpr hlen) r₀ hr₀
    exact absurd this (Nat.lt_irrefl r₀.length)
  | error e =>
    rw [buildMapping_error_eq header rows (List.range header.length) [] e
      hres]

end SheetsAdapter

namespace SheetsAdapter

/-! ### Unfolding the fetch pipeline -/

theorem build_connection_ok (env : ServiceEnv) (s : ServiceState)
    (h : env.buildResult = .ok ()) :
    build_connection env s = (.ok s.opened, ⟨s.opened + 1⟩) := by
  simp [build_connection, build, h]

theorem build_connection_err (env : ServiceEnv) (s : ServiceState)
    (e : PyError) (h : env.buildResult = .error e) :
    build_connection env s = (.error (wrapError e), s) := by
  simp [build_connection, build, h]

theorem get_sheet_data_build_ok (env : ServiceEnv)
    (sid rng : String) (s : ServiceState) (h : env.buildResult = .ok ()) :
    get_sheet_data env sid rng s
      = (fetchBody env s.opened sid rng, ⟨s.opened + 1⟩) := by
  simp [get_sheet_data, build_connection_ok env s h]

theorem fetchBody_vals_err (env : ServiceEnv) (conn : Nat)
    (sid rng : String) (e : PyError)
    (hv : env.sheetValues conn sid rng = .error e) :
    fetchBody env conn sid rng = .error (wrapError e) := by
  simp [fetchBody, hv, Except.bind]

theorem fetchBody_inner_ok (env : ServiceEnv) (conn : Nat)
    (sid rng : String) (values : List (List String)) (d : PyDict)
    (hv : env.sheetValues conn sid rng = .ok values)
    (hd : get_sheet_data_inner values = .ok d) :
    fetchBody env conn sid rng = .ok d := by
  simp [fetchBody, hv, Except.bind, hd]

theorem fetchBody_inner_err (env : ServiceEnv) (conn : Nat)
    (sid rng : String) (values : List (List String)) (e : PyError)
    (hv : env.sheetValues conn sid rng = .ok values)
    (he : get_sheet_data_inner values = .error e) :
    fetchBody env conn sid rng = .error (wrapError e) := by
  simp [fetchBody, hv, Except.bind, he]

/-! ### Facts about the DataFrame model -/

theorem colIndex_none_imp (d : PyDict) (k : String)
    (h : colIndex (d.map Prod.fst) k = none) : dictGet d k = none := by
  induction d with
  | nil => rfl
  | cons p d ih =>
    simp only [List.map_cons, colIndex] at h
    by_cases hp : p.1 = k
    · rw [if_pos hp] at h; exact Option.noConfusion h
    · rw [if_neg hp] at h
      rw [dictGet, if_neg hp]
      cases hc : colIndex (d.map Prod.fst) k with
      | none => exact ih hc
      | some j => rw [hc] at h; exact Option.noConfusion h

theorem colIndex_some_imp (d : PyDict) (k : String) (j : Nat)
    (h : colIndex (d.map Prod.fst) k = some j) :
    ∃ p, d.get? j = some p ∧ p.1 = k ∧ dictGet d k = some p.2 := by
  induction d generalizing j with
  | nil => exact Option.noConfusion h
  | cons p d ih =>
    simp only [List.map_cons, colIndex] at h
    by_cases hp : p.1 = k
    · rw [if_pos hp] at h
      have hj : j = 0 := (Option.some.inj h).symm
      subst hj
      exact ⟨p, rfl, hp, by rw [dictGet, if_pos hp]⟩
    · rw [if_neg hp] at h
      cases hc : colIndex (d.map Prod.fst) k with
      | none => rw [hc] at h; exact Option.noConfusion h
      | some j' =>
        rw [hc] at h
        have hj : j = j' + 1 := (Option.some.inj h).symm
        subst hj
        obtain ⟨q, hq1, hq2, hq3⟩ := ih j' hc
        refine ⟨q, ?_, hq2, ?_⟩
        · rw [List.get?_cons_succ]; exact hq1
        · rw [dictGet, if_neg hp]; exact hq3

end SheetsAdapter

namespace SheetsAdapter

/-- A service environment whose handshake succeeds and which always returns
the given grid, regardless of handle, spreadsheet id and range. -/
def constEnv (grid : List (List String)) : ServiceEnv :=
  ⟨.ok (), fun _ _ _ => .ok grid⟩

/-- Claim C1: for every well-formed grid (at least one data row, at least
one column, distinct header labels, no ragged rows), `get_sheet_data`
returns a Column Mapping with exactly `M` keys, each key `header[j]` mapped
to a sequence of length `N` with `mapping[header[j]][i] = grid[i+1][j]`. -/
theorem C1_fetch_range_wellformed
    (header : List String) (rows : List (List String))
    (hM : 1 ≤ header.length) (hN : 1 ≤ rows.length)
    (hnodup : header.Nodup)
    (hrect : ∀ r ∈ rows, r.length = header.length)
    (env : ServiceEnv) (sid rng : String) (s : ServiceState)
    (hbuild : env.buildResult = .ok ())
    (hvals : env.sheetValues s.opened sid rng = .ok (header :: rows)) :
    ∃ d, (get_sheet_data env sid rng s).1 = .ok d
      ∧ d.length = header.length
      ∧ ∀ j, j < header.length →
          ∃ col, dictGet d (header.getD j "") = some col
            ∧ col.length = rows.length
            ∧ ∀ i, i < rows.length →
                col.getD i "" = (rows.getD i []).getD j "" := by
  have hrect' : ∀ r ∈ rows, header.length ≤ r.length :=
    fun r hr => le_of_eq (hrect r hr).symm
  have hinner : get_sheet_data_inner (header :: rows)
      = .ok ((List.range header.length).map
          (fun i => (header.getD i "", rows.map (fun r => r.getD i "")))) :=
    reshape_struct header rows hnodup hrect'
  refine ⟨(List.range header.length).map
      (fun i => (header.getD i "", rows.map (fun r => r.getD i ""))),
      ?_, ?_, ?_⟩
  · rw [get_sheet_data_build_ok env sid rng s hbuild]
    exact fetchBody_inner_ok env s.opened sid rng _ _ hvals hinner
  · simp
  · intro j hj
    refine ⟨rows.map (fun r => r.getD j ""), ?_, by simp, ?_⟩
    · exact dictGet_map_keys (fun i => header.getD i "")
        (fun i => rows.map (fun r => r.getD i ""))
        (List.range header.length) j (List.mem_range.mpr hj)
        (by rw [rangeMapGetD header ""]; exact hnodup)
    · intro i hi
      rw [getD_map_of_lt (fun r => r.getD j "") rows i hi [] ""]

/-- Witness for C1: the end-to-end grid from the spec,
`[["Name","Age"],["Ann","30"],["Bo","25"]]`. -/
theorem C1_fetch_range_wellformed_witness :
    ∃ d, (get_sheet_data
        (constEnv [["Name", "Age"], ["Ann", "30"], ["Bo", "25"]])
        "abc123" "Sheet1!A1:B3" ⟨0⟩).1 = .ok d
      ∧ d.length = (["Name", "Age"] : List String).length
      ∧ ∀ j, j < (["Name", "Age"] : List String).length →
          ∃ col, dictGet d ((["Name", "Age"] : List String).getD j "")
              = some col
            ∧ col.length = ([["Ann", "30"], ["Bo", "25"]]
                : List (List String)).length
            ∧ ∀ i, i < ([["Ann", "30"], ["Bo", "25"]]
                : List (List String)).length →
                col.getD i "" = (([["Ann", "30"], ["Bo", "25"]]
                  : List (List String)).getD i []).getD j "" :=
  C1_fetch_range_wellformed ["Name", "Age"] [["Ann", "30"], ["Bo", "25"]]
    (by decide) (by decide) (by decide) (by decide)
    (constEnv [["Name", "Age"], ["Ann", "30"], ["Bo", "25"]])
    "abc123" "Sheet1!A1:B3" ⟨0⟩ rfl rfl

/-- Claim C2 as stated is false: a grid consisting of only a header row,
`[["A","B"]]`, does not trigger the empty-range failure; `if not results`
sees a non-empty list and the adapter returns the mapping
`{"A": [], "B": []}` with empty columns. -/
theorem C2_counterexample :
    (get_sheet_data (constEnv [["A", "B"]]) "sheet-id" "Sheet1!A:B" ⟨0⟩).1
      = .ok [("A", []), ("B", [])] := by
  rfl

/-- Claim C2 amended: a header-only grid succeeds, with every header label
mapped to the empty sequence; only the grid with no rows at all (`[]`)
takes the empty-range failure path (surfaced re-wrapped as a generic
`Exception`). -/
theorem C2_amended_header_only
    (header : List String) (hM : 1 ≤ header.length) (hnodup : header.Nodup)
    (env : ServiceEnv) (sid rng : String) (s : ServiceState)
    (hbuild : env.buildResult = .ok ()) :
    (env.sheetValues s.opened sid rng = .ok [header] →
      ∃ d, (get_sheet_data env sid rng s).1 = .ok d
        ∧ d.length = header.length
        ∧ ∀ j, j < header.length → dictGet d (header.getD j "") = some [])
    ∧ (env.sheetValues s.opened sid rng = .ok [] →
      (get_sheet_data env sid rng s).1 = .error ⟨"Exception",
        "An error has occured: The spreadsheet/sheet range is empty."⟩) := by
  constructor
  · intro hvals
    have hinner : get_sheet_data_inner [header]
        = .ok ((List.range header.length).map
            (fun i => (header.getD i "", ([] : List (List String)).map
              (fun r => r.getD i "")))) :=
      reshape_struct header [] hnodup (fun r hr => absurd hr (List.not_mem_nil r))
    refine ⟨(List.range header.length).map
        (fun i => (header.getD i "", [])), ?_, by simp, ?_⟩
    · rw [get_sheet_data_build_ok env sid rng s hbuild]
      exact fetchBody_inner_ok env s.opened sid rng _ _ hvals hinner
    · intro j hj
      exact dictGet_map_keys (fun i => header.getD i "") (fun _ => [])
        (List.range header.length) j (List.mem_range.mpr hj)
        (by rw [rangeMapGetD header ""]; exact hnodup)
  · intro hvals
    rw [get_sheet_data_build_ok env sid rng s hbuild]
    exact fetchBody_inner_err env s.opened sid rng [] _ hvals rfl

/-- Witness for the amended C2, on the concrete grids `[["A","B"]]` and
`[]`. -/
theorem C2_amended_header_only_witness :
    (∃ d, (get_sheet_data (constEnv [["A", "B"]]) "id" "r" ⟨0⟩).1 = .ok d
      ∧ d.length = (["A", "B"] : List String).length
      ∧ ∀ j, j < (["A", "B"] : List String).length →
          dictGet d ((["A", "B"] : List String).getD j "") = some [])
    ∧ (get_sheet_data (constEnv []) "id" "r" ⟨0⟩).1 = .error ⟨"Exception",
        "An error has occured: The spreadsheet/sheet range is empty."⟩ :=
  ⟨(C2_amended_header_only ["A", "B"] (by decide) (by decide)
      (constEnv [["A", "B"]]) "id" "r" ⟨0⟩ rfl).1 rfl,
    (C2_amended_header_only ["A", "B"] (by decide) (by decide)
      (constEnv []) "id" "r" ⟨0⟩ rfl).2 rfl⟩

/-- Claim C3: a grid with some data row strictly shorter than the header
makes the reshape step fail with an `IndexError` (no Column Mapping is
returned); through `get_sheet_data` it surfaces re-wrapped as the generic
`Exception` embedding the `IndexError` message. -/
theorem C3_ragged_fails
    (header : List String) (rows : List (List String))
    (hragged : ∃ r ∈ rows, r.length < header.length)
    (env : ServiceEnv) (sid rng : String) (s : ServiceState)
    (hbuild : env.buildResult = .ok ())
    (hvals : env.sheetValues s.opened sid rng = .ok (header :: rows)) :
    reshape header rows = .error indexErr
    ∧ (get_sheet_data env sid rng s).1 = .error ⟨"Exception",
        "An error has occured: list index out of range"⟩ := by
  have hre := reshape_not_ok header rows hragged
  refine ⟨hre, ?_⟩
  rw [get_sheet_data_build_ok env sid rng s hbuild]
  exact fetchBody_inner_err env s.opened sid rng (header :: rows) indexErr
    hvals hre

/-- Witness for C3: the ragged grid with header `["A","B","C"]` and the
single shorter data row `["1","2"]`. -/
theorem C3_ragged_fails_witness :
    reshape ["A", "B", "C"] [["1", "2"]] = .error indexErr
    ∧ (get_sheet_data (constEnv [["A", "B", "C"], ["1", "2"]])
        "id" "r" ⟨0⟩).1 = .error ⟨"Exception",
        "An error has occured: list index out of range"⟩ :=
  C3_ragged_fails ["A", "B", "C"] [["1", "2"]]
    ⟨["1", "2"], by decide, by decide⟩
    (constEnv [["A", "B", "C"], ["1", "2"]]) "id" "r" ⟨0⟩ rfl rfl

end SheetsAdapter

namespace SheetsAdapter

/-- Claim C4 as stated is false on the exact message text: the source
builds the wrapped message with the misspelling `"An error has occured: "`
(line 42 and line 86 of `src/main.py`), so the wrapped error's message is
not of the form `"An error has occurred: ..."` claimed by the spec.  At
the concrete handshake failure `OSError("boom")` the wrapped message is
`"An error has occured: boom"`, which differs from the claimed
`"An error has occurred: boom"` and does not begin with
`"An error has occurred: "`. -/
theorem C4_counterexample :
    (build_connection ⟨.error ⟨"OSError", "boom"⟩, fun _ _ _ => .ok []⟩
        ⟨0⟩).1 = .error ⟨"Exception", "An error has occured: boom"⟩
    ∧ "An error has occured: boom" ≠ "An error has occurred: boom"
    ∧ "An error has occured: boom".data.take 24
        ≠ "An error has occurred: ".data := by
  refine ⟨rfl, by simp, ?_⟩
  intro h
  simp at h

/-- Claim C4 amended: every error arising in the handshake
(`build_connection`) or inside `get_sheet_data`'s try block (request
execution, empty-range check, reshaping) is re-raised as a generic
`Exception` whose message is `"An error has occured: "` (sic) followed by
the original error's message; the original error's kind is discarded. -/
theorem C4_amended_wrapping
    (e : PyError)
    (vals : Nat → String → String → Except PyError (List (List String)))
    (env : ServiceEnv) (sid rng : String) (s : ServiceState)
    (values : List (List String)) :
    (build_connection ⟨.error e, vals⟩ s).1
      = .error ⟨"Exception", "An error has occured: " ++ e.msg⟩
    ∧ (env.buildResult = .ok () → env.sheetValues s.opened sid rng = .error e →
        (get_sheet_data env sid rng s).1
          = .error ⟨"Exception", "An error has occured: " ++ e.msg⟩)
    ∧ (env.buildResult = .ok () →
        env.sheetValues s.opened sid rng = .ok values →
        get_sheet_data_inner values = .error e →
        (get_sheet_data env sid rng s).1
          = .error ⟨"Exception", "An error has occured: " ++ e.msg⟩) := by
  refine ⟨?_, ?_, ?_⟩
  · rw [build_connection_err ⟨.error e, vals⟩ s e rfl]
    rfl
  · intro hbuild hvals
    rw [get_sheet_data_build_ok env sid rng s hbuild]
    exact fetchBody_vals_err env s.opened sid rng e hvals
  · intro hbuild hvals hinner
    rw [get_sheet_data_build_ok env sid rng s hbuild]
    exact fetchBody_inner_err env s.opened sid rng values e hvals hinner

/-- Witness for the amended C4: a handshake failure, a request failure and
an in-try failure (the empty grid), each wrapped with its kind erased. -/
theorem C4_amended_wrapping_witness :
    (build_connection ⟨.error ⟨"OSError", "boom"⟩, fun _ _ _ => .ok []⟩
        ⟨0⟩).1 = .error ⟨"Exception", "An error has occured: boom"⟩
    ∧ (get_sheet_data ⟨.ok (), fun _ _ _ => .error ⟨"HttpError", "404"⟩⟩
        "id" "r" ⟨0⟩).1 = .error ⟨"Exception", "An error has occured: 404"⟩
    ∧ (get_sheet_data (constEnv []) "id" "r" ⟨0⟩).1 = .error ⟨"Exception",
        "An error has occured: The spreadsheet/sheet range is empty."⟩ :=
  ⟨(C4_amended_wrapping ⟨"OSError", "boom"⟩ (fun _ _ _ => .ok [])
      (constEnv []) "id" "r" ⟨0⟩ []).1,
    (C4_amended_wrapping ⟨"HttpError", "404"⟩ (fun _ _ _ => .ok [])
      ⟨.ok (), fun _ _ _ => .error ⟨"HttpError", "404"⟩⟩
      "id" "r" ⟨0⟩ []).2.1 rfl rfl,
    (C4_amended_wrapping ⟨"Exception", "The spreadsheet/sheet range is empty."⟩
      (fun _ _ _ => .ok []) (constEnv []) "id" "r" ⟨0⟩ []).2.2 rfl rfl rfl⟩

/-- Claim C5: with a duplicated header label, the Column Mapping maps that
label to the column of its last (rightmost) occurrence `j`; the earlier
occurrence's column is overwritten. -/
theorem C5_duplicate_last_write_wins
    (header : List String) (rows : List (List String))
    (hrect : ∀ r ∈ rows, header.length ≤ r.length)
    (j : Nat) (hj : j < header.length)
    (hdup : ∃ j₀, j₀ < j ∧ header.getD j₀ "" = header.getD j "")
    (hlast : ∀ k, j < k → k < header.length →
        header.getD k "" ≠ header.getD j "") :
    ∃ d, get_sheet_data_inner (header :: rows) = .ok d
      ∧ dictGet d (header.getD j "")
          = some (rows.map (fun r => r.getD j "")) := by
  refine ⟨buildMappingPure (fun i => header.getD i "")
      (fun i => rows.map (fun r => r.getD i ""))
      (List.range header.length) [], ?_, ?_⟩
  · exact reshape_ok header rows hrect
  · exact buildMappingPure_last_write (fun i => header.getD i "")
      (fun i => rows.map (fun r => r.getD i ""))
      header.length [] j hj hlast

/-- Witness for C5: header `["A","A"]` with data row `["1","2"]`; the
mapping sends `"A"` to `["2"]`, the column of the second occurrence. -/
theorem C5_duplicate_last_write_wins_witness :
    ∃ d, get_sheet_data_inner [["A", "A"], ["1", "2"]] = .ok d
      ∧ dictGet d ((["A", "A"] : List String).getD 1 "")
          = some (([["1", "2"]] : List (List String)).map
              (fun r => r.getD 1 "")) :=
  C5_duplicate_last_write_wins ["A", "A"] [["1", "2"]]
    (by decide) 1 (by decide) ⟨0, by decide, by decide⟩
    (fun _ h1 h2 => absurd h1 (Nat.not_lt.mpr (Nat.lt_succ_iff.mp h2)))

/-- Claim C6: a failing credential loader's error propagates out of the
constructor unmodified — same kind, same message, no re-wrap. -/
theorem C6_loader_errors_propagate (cenv : CredEnv) :
    (∀ path e, cenv.from_service_account_file path = .error e →
        init cenv (.str path) = .error e)
    ∧ (∀ info e, cenv.from_service_account_info info = .error e →
        init cenv (.dict info) = .error e) := by
  constructor
  · intro path e h
    simp [init, h, Except.map]
  · intro info e h
    simp [init, h, Except.map]

/-- Witness for C6: loaders that fail with a `FileNotFoundError` and a
`ValueError`; both surface unchanged from the constructor. -/
theorem C6_loader_errors_propagate_witness :
    init ⟨fun _ => .error ⟨"FileNotFoundError", "no such file"⟩,
        fun _ => .error ⟨"ValueError", "missing private_key"⟩⟩
      (.str "creds.json")
        = .error ⟨"FileNotFoundError", "no such file"⟩
    ∧ init ⟨fun _ => .error ⟨"FileNotFoundError", "no such file"⟩,
        fun _ => .error ⟨"ValueError", "missing private_key"⟩⟩
      (.dict [("client_email", "a@b.c")])
        = .error ⟨"ValueError", "missing private_key"⟩ :=
  ⟨(C6_loader_errors_propagate _).1 "creds.json" _ rfl,
    (C6_loader_errors_propagate _).2 [("client_email", "a@b.c")] _ rfl⟩

/-- Claim C7: the constructor dispatches on the descriptor's runtime type:
a string descriptor is resolved through the file loader only (the result
is unchanged when the in-memory loader is replaced), a mapping descriptor
through the in-memory loader only (unchanged when the file loader is
replaced), and there is no third branch — each result is exactly the
chosen loader's outcome. -/
theorem C7_constructor_dispatch :
    (∀ (cenv : CredEnv) (path : String),
        init cenv (.str path)
          = (cenv.from_service_account_file path).map (fun c => ⟨c⟩))
    ∧ (∀ (cenv : CredEnv) (path : String)
        (g : CredDict → Except PyError Creds),
        init ⟨cenv.from_service_account_file, g⟩ (.str path)
          = init cenv (.str path))
    ∧ (∀ (cenv : CredEnv) (info : CredDict),
        init cenv (.dict info)
          = (cenv.from_service_account_info info).map (fun c => ⟨c⟩))
    ∧ (∀ (cenv : CredEnv) (info : CredDict)
        (f : String → Except PyError Creds),
        init ⟨f, cenv.from_service_account_info⟩ (.dict info)
          = init cenv (.dict info)) :=
  ⟨fun _ _ => rfl, fun _ _ _ => rfl, fun _ _ => rfl, fun _ _ _ => rfl⟩

end SheetsAdapter

namespace SheetsAdapter

/-- Claim C8: for a Column Mapping whose value sequences all have equal
length, building the tabular structure and reading it back column by
column reproduces the original keys (in order) and every value sequence:
`dfGetCol` agrees with `dictGet` on every label. -/
theorem C8_dataframe_roundtrip (d : PyDict)
    (heq : ∀ p ∈ d, ∀ q ∈ d, (Prod.snd p).length = (Prod.snd q).length) :
    ∃ df, pdDataFrame d = .ok df
      ∧ df.columns = d.map Prod.fst
      ∧ ∀ k, dfGetCol df k = dictGet d k := by
  have hall : ∀ p ∈ d, (Prod.snd p).length = colLen d := by
    intro p hp
    cases d with
    | nil => exact absurd hp (List.not_mem_nil p)
    | cons q d' => exact heq p hp q (List.mem_cons_self q d')
  have hcond : (d.all (fun p => p.2.length = colLen d)) = true := by
    rw [List.all_eq_true]
    intro p hp
    exact decide_eq_true (hall p hp)
  refine ⟨⟨d.map Prod.fst, (List.range (colLen d)).map
      (fun i => d.map (fun p => p.2.getD i ""))⟩, ?_, rfl, ?_⟩
  · unfold pdDataFrame
    rw [if_pos hcond]
  · intro k
    unfold dfGetCol
    cases hc : colIndex (d.map Prod.fst) k with
    | none => exact (colIndex_none_imp d k hc).symm
    | some j =>
      dsimp only
      obtain ⟨p, hget, hk, hdg⟩ := colIndex_some_imp d k j hc
      rw [hdg]
      have hjlt : j < d.length := by
        by_contra hge
        rw [List.get?_eq_getElem?,
          List.getElem?_eq_none (Nat.le_of_not_lt hge)] at hget
        exact Option.noConfusion hget
      have hmem : p ∈ d := List.get?_mem hget
      have hn : colLen d = p.2.length := (hall p hmem).symm
      rw [List.map_map]
      congr 1
      have hstep : ((fun r => r.getD j "")
          ∘ (fun i => d.map (fun q => q.2.getD i "")))
          = fun i => p.2.getD i "" := by
        funext i
        show (d.map (fun q => q.2.getD i "")).getD j "" = p.2.getD i ""
        rw [getD_map_of_lt (fun q => q.2.getD i "") d j hjlt ("", []) ""]
        rw [getD_of_get? d j p ("", []) hget]
      rw [hstep, hn, rangeMapGetD]

/-- Witness for C8: the mapping `{"Name": ["Ann","Bo"], "Age": ["30","25"]}`
from the spec's end-to-end scenario. -/
theorem C8_dataframe_roundtrip_witness :
    ∃ df, pdDataFrame [("Name", ["Ann", "Bo"]), ("Age", ["30", "25"])]
        = .ok df
      ∧ df.columns = ([("Name", ["Ann", "Bo"]), ("Age", ["30", "25"])]
          : PyDict).map Prod.fst
      ∧ ∀ k, dfGetCol df k
          = dictGet [("Name", ["Ann", "Bo"]), ("Age", ["30", "25"])] k :=
  C8_dataframe_roundtrip [("Name", ["Ann", "Bo"]), ("Age", ["30", "25"])]
    (by decide)

/-- Claim C9: each `get_sheet_data` call opens one brand-new connection
handle at its start and performs the request on that handle (the handle
just minted, `s.opened`), regardless of the prior service state — no
handle is cached or reused; and `sheet_data_to_df` first builds a
connection it then ignores: its fetch runs on the next fresh handle
`s.opened + 1`, leaving exactly two connections opened. -/
theorem C9_fresh_connection_per_call :
    (∀ (env : ServiceEnv) (sid rng : String) (s : ServiceState),
        env.buildResult = .ok () →
        get_sheet_data env sid rng s
          = (fetchBody env s.opened sid rng, ⟨s.opened + 1⟩))
    ∧ (∀ (cenv : CredEnv) (env : ServiceEnv) (cr : Descriptor)
        (sid rng : String) (s : ServiceState)
        (gs : GoogleSheetConnectorClass) (raw : PyDict),
        init cenv cr = .ok gs → env.buildResult = .ok () →
        fetchBody env (s.opened + 1) sid rng = .ok raw →
        sheet_data_to_df cenv env cr sid rng s
          = (pdDataFrame raw, ⟨s.opened + 2⟩)) := by
  constructor
  · exact fun env sid rng s h => get_sheet_data_build_ok env sid rng s h
  · intro cenv env cr sid rng s gs raw hinit hbuild hfetch
    unfold sheet_data_to_df
    rw [hinit, build_connection_ok env s hbuild]
    dsimp only
    rw [get_sheet_data_build_ok env sid rng ⟨s.opened + 1⟩ hbuild]
    dsimp only
    rw [hfetch]

/-- Witness for C9: a prior state with five connections already opened
still gets a fresh sixth handle, and a `sheet_data_to_df` run from a fresh
state fetches on handle 1 (not the handle 0 it built first) and ends with
two connections opened. -/
theorem C9_fresh_connection_per_call_witness :
    get_sheet_data (constEnv [["A"], ["1"]]) "id" "r" ⟨5⟩
      = (fetchBody (constEnv [["A"], ["1"]]) 5 "id" "r", ⟨6⟩)
    ∧ sheet_data_to_df ⟨fun _ => .ok ⟨"tok"⟩, fun _ => .ok ⟨"tok"⟩⟩
        (constEnv [["A"], ["1"]]) (.str "creds.json") "id" "r" ⟨0⟩
      = (pdDataFrame [("A", ["1"])], ⟨2⟩) :=
  ⟨C9_fresh_connection_per_call.1 (constEnv [["A"], ["1"]]) "id" "r" ⟨5⟩ rfl,
    C9_fresh_connection_per_call.2
      ⟨fun _ => .ok ⟨"tok"⟩, fun _ => .ok ⟨"tok"⟩⟩
      (constEnv [["A"], ["1"]]) (.str "creds.json") "id" "r" ⟨0⟩
      ⟨⟨"tok"⟩⟩ [("A", ["1"])] rfl rfl rfl⟩

/-- Claim C10: a grid whose data rows are at least as long as the header,
some strictly longer, reshapes successfully, and the result coincides with
the reshape of the truncated grid in which every data row is cut to the
header length — the trailing cells are never read. -/
theorem C10_long_rows_truncated
    (header : List String) (rows : List (List String))
    (hlong : ∀ r ∈ rows, header.length ≤ r.length)
    (hsome : ∃ r ∈ rows, header.length < r.length) :
    ∃ d, get_sheet_data_inner (header :: rows) = .ok d
      ∧ get_sheet_data_inner
          (header :: rows.map (fun r => r.take header.length)) = .ok d := by
  refine ⟨_, reshape_ok header rows hlong, ?_⟩
  have hlong' : ∀ r ∈ rows.map (fun r => r.take header.length),
      header.length ≤ r.length := by
    intro r hr
    rcases List.mem_map.mp hr with ⟨r₀, hr₀, rfl⟩
    rw [List.length_take]
    exact le_min (le_refl _) (hlong r₀ hr₀)
  show reshape header (rows.map (fun r => r.take header.length)) = _
  rw [reshape_ok header _ hlong']
  congr 1
  apply buildMappingPure_congr
  intro i hi
  refine ⟨rfl, ?_⟩
  rw [List.map_map]
  apply List.map_congr_left
  intro r hr
  show (r.take header.length).getD i "" = r.getD i ""
  exact getD_take_of_lt r header.length i (List.mem_range.mp hi) ""

/-- Witness for C10: header `["A"]` with the longer data row `["1","2"]`;
the extra cell `"2"` is dropped and the result matches the truncated grid
`[["A"],["1"]]`. -/
theorem C10_long_rows_truncated_witness :
    ∃ d, get_sheet_data_inner [["A"], ["1", "2"]] = .ok d
      ∧ get_sheet_data_inner
          ([["A"]] ++ ([["1", "2"]] : List (List String)).map
            (fun r => r.take (["A"] : List String).length)) = .ok d :=
  C10_long_rows_truncated ["A"] [["1", "2"]] (by decide)
    ⟨["1", "2"], by decide, by decide⟩

end SheetsAdapter
